import Mathlib

/-!
Verification of the bridge-association decision core of the
edit-osm-add-missing-bridge-for-truck-restriction pipeline.

The definitions below are shallow embeddings of the Python decision
functions found under the repository's `hydrography-approach` and
`merge-approaches` directories: candidate groups are lists of rows,
nullable dataframe cells are `Option` values, pandas boolean masks are
`List.filter`, and `iloc[0]` is the head of a (nonempty) filtered list.
-/

namespace BridgeAssoc

/-- One candidate (bridge, OSM way, stream) join row of the intermediate
association table built by `create_intermediate_association`
(`determine_final_osm_id.py`).  `permanent_identifier` is the column
`permanent_identifier_x` (stream id), `is_stream_identical` the column
`Is_Stream_Identical`, `is_min_dist` the column `Is_Min_Dist`, and
`combo_count` the column `combo-count` (count of distinct `osm_id`s in the
bridge's group). -/
structure CandidateRow where
  osm_id : Option String
  name : Option String
  permanent_identifier : Option String
  gnis_name : Option String
  long_intersection : Option ℚ
  lat_intersection : Option ℚ
  is_stream_identical : Bool
  is_min_dist : Bool
  combo_count : Nat
deriving DecidableEq, Repr

/-- The series returned by `determine_final_osm_id`: the six final
association fields, each nullable (`pd.NA` is `none`). -/
structure FinalAssoc where
  final_osm_id : Option String
  osm_name : Option String
  final_stream_id : Option String
  stream_name : Option String
  final_long : Option ℚ
  final_lat : Option ℚ
deriving DecidableEq, Repr

/-- The all-null association produced for an unresolved ambiguity. -/
def nullAssoc : FinalAssoc := ⟨none, none, none, none, none, none⟩

/-- The association whose six fields are all taken from the single row `r`. -/
def assocOfRow (r : CandidateRow) : FinalAssoc :=
  ⟨r.osm_id, r.name, r.permanent_identifier, r.gnis_name,
   r.long_intersection, r.lat_intersection⟩

/-- Shallow embedding of `determine_final_osm_id`
(`hydrography-approach/processing_scripts/associate_data/determine_final_osm_id.py`,
lines 69-165).  `group` is the list of candidate rows of one bridge;
`true_stream` is `group[group["Is_Stream_Identical"]]`, `min_dist` is
`group[group["Is_Min_Dist"]]`.  The empty group raises (`IndexError` wrapped
into `ValueError`), modelled as `none`. -/
def determine_final_osm_id (group : List CandidateRow) : Option FinalAssoc :=
  match group with
  | [] => none
  | g0 :: _ =>
    let true_stream := group.filter (fun r => r.is_stream_identical)
    let min_dist := group.filter (fun r => r.is_min_dist)
    if g0.combo_count == 1 then
      -- only one unique OSM id: it wins; stream fields from the first
      -- `Is_Min_Dist` row (or NA); anchor point by the branch ladder below
      let streamFields : Option String × Option String :=
        match min_dist with
        | [] => (none, none)
        | m :: _ => (m.permanent_identifier, m.gnis_name)
      let anchor : Option ℚ × Option ℚ :=
        match true_stream with
        | [t] => (t.long_intersection, t.lat_intersection)
        | t :: _ :: _ =>
          match true_stream.filter (fun r => r.is_min_dist) with
          | m :: _ => (m.long_intersection, m.lat_intersection)
          | [] => (t.long_intersection, t.lat_intersection)
        | [] =>
          match min_dist with
          | m :: _ => (m.long_intersection, m.lat_intersection)
          | [] => (g0.long_intersection, g0.lat_intersection)
      some ⟨g0.osm_id, g0.name, streamFields.1, streamFields.2,
            anchor.1, anchor.2⟩
    else
      match true_stream with
      | [t] => some (assocOfRow t)
      | _ =>
        match min_dist with
        | m :: _ => some (assocOfRow m)
        | [] => some nullAssoc

end BridgeAssoc

namespace BridgeDedup

/-- Shallow embedding of one iteration of the pair loop of
`filter_duplicates_and_output`
(`hydrography-approach/processing_scripts/associate_data/exclude_nearby_bridges.py`,
lines 32-57).  `removed` is the accumulated `remove_ids`; a pair with either
endpoint already removed is skipped; a missing similarity score (the
`IndexError` branch) logs and skips the pair; otherwise the lower-scoring
bridge is added, an exact tie removing the second-listed bridge. -/
def dedupStep (scores : String → Option ℚ) (removed : List String)
    (p : String × String) : List String :=
  if p.1 ∈ removed ∨ p.2 ∈ removed then removed
  else
    match scores p.1, scores p.2 with
    | some s1, some s2 =>
      if s1 > s2 then p.2 :: removed
      else if s2 > s1 then p.1 :: removed
      else p.2 :: removed
    | _, _ => removed

/-- The final `remove_ids` produced by `filter_duplicates_and_output`:
self-pairs are filtered out first (line 24), then the loop walks the
remaining pairs in order starting from the empty set. -/
def remove_ids (scores : String → Option ℚ)
    (pairs : List (String × String)) : List String :=
  (pairs.filter (fun p => p.1 != p.2)).foldl (dedupStep scores) []

/-- The bridge a processed pair removes, when both scores are found:
the lower-scoring endpoint, the second on ties. -/
def loserOpt (scores : String → Option ℚ) (p : String × String) : Option String :=
  match scores p.1, scores p.2 with
  | some s1, some s2 =>
    some (if s1 > s2 then p.2 else if s2 > s1 then p.1 else p.2)
  | _, _ => none

/-- Two pairs that share no endpoint. -/
def pairDisjoint (p q : String × String) : Prop :=
  p.1 ≠ q.1 ∧ p.1 ≠ q.2 ∧ p.2 ≠ q.1 ∧ p.2 ≠ q.2

end BridgeDedup

namespace MergeApproaches

/-- One row of the merged hydrography/mile-point table built in `main` of
`merge-approaches/get_merged_association_output.py` just before the
agreement filter (line 239): `osm_id_hydro` is the hydrography method's
final association, `osm_id_mile` the mile-point method's way (null when the
left-merge found no mile-point row), `geometry` the mile-point method's
snapped point, `unique_bridge_osm_combinations` the hydrography combo-count
and `osm_similarity_hydro` / `neighbouring_roads_similarity` the two name
scores feeding `combined_max_similarity`. -/
structure MergeRow where
  structure_number : String
  osm_id_hydro : Option String
  osm_id_mile : Option String
  geometry : Option (ℚ × ℚ)
  unique_bridge_osm_combinations : Nat
  osm_similarity_hydro : ℚ
  neighbouring_roads_similarity : ℚ
deriving DecidableEq, Repr

/-- `combined_max_similarity` (line 229): the row-wise maximum of the
neighbouring-roads score and the hydrography name score. -/
def combined_max_similarity (r : MergeRow) : ℚ :=
  max r.neighbouring_roads_similarity r.osm_similarity_hydro

/-- The agreement filter of `main` (lines 239-242): a row survives exactly
when the two methods' OSM ids compare equal under pandas `==` (a null cell
compares false, even against another null) and the mile-point geometry is
not null. -/
def keepsRow (r : MergeRow) : Bool :=
  (match r.osm_id_mile, r.osm_id_hydro with
   | some a, some b => a == b
   | _, _ => false) && r.geometry.isSome

/-- The rows of `merged-approaches-association-output.csv` (lines 239-263):
the rows surviving the agreement filter; the output `osm_id` column is the
kept row's `osm_id_hydro`. -/
def merged_rows (rows : List MergeRow) : List MergeRow :=
  rows.filter keepsRow

/-- `similarity_threshold` (line 167), hardcoded to 70. -/
def similarity_threshold : ℚ := 70

/-- The `osm_edits` classification (lines 250-252): every kept row starts as
"Automated"; rows with more than one OSM way inside the bridge buffer and a
combined similarity below the threshold are reclassified "Maproulette". -/
def osm_edits (r : MergeRow) : String :=
  if 1 < r.unique_bridge_osm_combinations ∧
      combined_max_similarity r < similarity_threshold
  then "Maproulette" else "Automated"

end MergeApproaches

namespace Ledger

/-- The eight-count funnel written by `create_bridge_statistics`
(`hydrography-approach/processing_scripts/bridge_statistics/create_bridge_stats.py`,
lines 127-207).  The first three counts are inputs; each later category is
computed as `stats_list[0] - sum(stats_list[1:]) - len(<next file>)`. -/
def create_bridge_statistics (total dup culverts lenYes lenManmade lenParallel
    lenFinal lenFinalCsv : ℤ) : List ℤ :=
  let existOsm := total - (dup + culverts) - lenYes
  let freeways := total - (dup + culverts + existOsm) - lenManmade
  let parallel := total - (dup + culverts + existOsm + freeways) - lenParallel
  let tunnel := total - (dup + culverts + existOsm + freeways + parallel) - lenFinal
  let nearby :=
    total - (dup + culverts + existOsm + freeways + parallel + tunnel) - lenFinalCsv
  [total, dup, culverts, existOsm, freeways, parallel, tunnel, nearby]

/-- The stats updates of `main` in `get_merged_association_output.py`
(lines 203-270): starting from the first eight funnel entries read back from
the stats file, append the unsnapped count, the cross-method-disagreement
count `stats_list[0] - sum(stats_list[1:]) - len(merge_df)`, the MapRoulette
count, and finally the automated-edit count
`stats_list[0] - sum(stats_list[1:])`. -/
def merged_main_stats (base : List ℤ) (unsnapped numAgreeRows maproulette : ℤ) :
    List ℤ :=
  let l1 := base ++ [unsnapped]
  let different := l1.headI - l1.tail.sum - numAgreeRows
  let l2 := l1 ++ [different]
  let l3 := l2 ++ [maproulette]
  let automated := l3.headI - l3.tail.sum
  l3 ++ [automated]

/-- The complete twelve-entry ledger of a pipeline run: the hydrography
funnel followed by the merge-stage categories and the final automated-edit
count. -/
def full_ledger (total dup culverts lenYes lenManmade lenParallel lenFinal
    lenFinalCsv unsnapped numAgreeRows maproulette : ℤ) : List ℤ :=
  merged_main_stats
    (create_bridge_statistics total dup culverts lenYes lenManmade lenParallel
      lenFinal lenFinalCsv)
    unsnapped numAgreeRows maproulette

end Ledger

namespace Similarity

/-- A table row: a lookup from column name to cell value, `none` being a
pandas NaN cell. -/
abbrev Row := String → Option String

/-- `vectorized_fuzz` applied to one row
(`hydrography-approach/processing_scripts/associate_data/calculate_match_percentage.py`,
lines 24-41): 0 whenever either cell is NaN, otherwise the token-sort-ratio
of the two cells.  `fuzz` abstracts the external `fuzz.token_sort_ratio`
(also wrapped scalar-wise by `calculate_osm_similarity` in
`merge-approaches/get_merged_association_output.py`, lines 12-33). -/
def vectorized_fuzz (fuzz : String → String → ℕ) (a b : Option String) : ℕ :=
  match a, b with
  | some x, some y => fuzz x y
  | _, _ => 0

/-- One row of `calculate_similarity_vectorized` (lines 43-58): each alias
column that exists in the table is scored against the fixed column;
`max(axis=1)` is the row maximum, `idxmax(axis=1)` the first column
attaining it, and rows whose maximum is 0 get their source label overridden
with the empty string. -/
def calculate_similarity_vectorized (fuzz : String → String → ℕ)
    (tableCols cols : List String) (fixed : String) (row : Row) : ℕ × String :=
  let present := cols.filter (fun c => tableCols.contains c)
  let scores := present.map (fun c => (c, vectorized_fuzz fuzz (row c) (row fixed)))
  let maxScore := (scores.map Prod.snd).foldl max 0
  let maxCol := ((scores.find? (fun cs => cs.2 == maxScore)).map Prod.fst).getD ""
  if maxScore = 0 then (0, "") else (maxScore, maxCol)

/-- Modelled from the spec (§4.3), the scalar row-by-row reference the claim
compares against: token-sort-ratio of each alias value against the fixed
column value, scoring 0 when either side is null, taking the maximum and
recording which alias produced it (the first, on ties). -/
def scalar_best_of_aliases (fuzz : String → String → ℕ)
    (cols : List String) (fixed : String) (row : Row) : ℕ × String :=
  let scores := cols.map (fun c => (c, vectorized_fuzz fuzz (row c) (row fixed)))
  let maxScore := (scores.map Prod.snd).foldl max 0
  let maxCol := ((scores.find? (fun cs => cs.2 == maxScore)).map Prod.fst).getD ""
  (maxScore, maxCol)

end Similarity

namespace ProjectionEngine

/-- A 2D point, (longitude, latitude). -/
abbrev Pt : Type := ℚ × ℚ

/-- Squared euclidean distance between two points. -/
def dist2 (p q : Pt) : ℚ := (p.1 - q.1) ^ 2 + (p.2 - q.2) ^ 2

/-- Perpendicular projection of `p` onto the segment from `a` to `b`,
clamped to the segment's extent. -/
def closestPointOnSegment (p a b : Pt) : Pt :=
  let dx := b.1 - a.1
  let dy := b.2 - a.2
  let len2 := dx * dx + dy * dy
  if len2 = 0 then a
  else
    let t := max 0 (min 1 (((p.1 - a.1) * dx + (p.2 - a.2) * dy) / len2))
    (a.1 + t * dx, a.2 + t * dy)

/-- `project_point_on_line`
(`hydrography-approach/processing_scripts/associate_data/get_point_projections_on_ways.py`,
lines 9-11): `line.interpolate(line.project(point))`, the nearest point of
the way to the bridge point; over a polyline `v0 :: vs` this is the best
clamped per-segment projection, earlier segments winning ties. -/
def project_point_on_line (p : Pt) (v0 : Pt) (vs : List Pt) : Pt :=
  match vs with
  | [] => v0
  | v1 :: rest =>
    let c := closestPointOnSegment p v0 v1
    let c' := project_point_on_line p v1 rest
    if dist2 p c' < dist2 p c then c' else c

/-- One row of `bridge_association_lengths` consumed by the projection
`run` loop (`get_point_projections_on_ways.py`, lines 45-101);
`final_osm_id` is `none` when the cell is NaN (`int(...)` raises
`ValueError`), and `bridge_length` is the structure length in feet. -/
structure AssocRow where
  structure_number : String
  final_osm_id : Option Int
  bridge_length : ℚ
deriving DecidableEq, Repr

/-- One output row of the projection loop: `none` for the projected
coordinates is the persisted empty-string sentinel. -/
structure ProjRow where
  structure_number : String
  final_osm_id : Option Int
  bridge_length : ℚ
  projected_long : Option ℚ
  projected_lat : Option ℚ
deriving DecidableEq, Repr

/-- Python's `round` to an integer: round half to even. -/
def roundHalfEven (q : ℚ) : ℤ :=
  let f := ⌊q⌋
  let frac := q - f
  if frac < 1 / 2 then f
  else if 1 / 2 < frac then f + 1
  else if f % 2 = 0 then f else f + 1

/-- `round(x, 2)`: round half to even at two decimal places. -/
def round2 (q : ℚ) : ℚ := (roundHalfEven (q * 100) : ℚ) / 100

/-- `round(row["bridge_length"] / 3.281, 2)`: feet to meters, two
decimals. -/
def bridge_length_meters (lenFt : ℚ) : ℚ := round2 (lenFt / (3281 / 1000))

/-- The body of the projection `run` loop
(`get_point_projections_on_ways.py`, lines 45-101) for one association row:
if converting `final_osm_id` fails (NaN), or the bridge-point lookup or the
OSM-way lookup raises `IndexError`, the except branch emits the row with the
empty sentinel for both projected coordinates; otherwise the bridge point is
projected onto the way.  The unit-converted length is written in both
branches. -/
def processRow (bridgePoints : String → Option Pt)
    (osmWays : String → Option (Pt × List Pt)) (row : AssocRow) : ProjRow :=
  match row.final_osm_id with
  | none =>
    ⟨row.structure_number, row.final_osm_id,
     bridge_length_meters row.bridge_length, none, none⟩
  | some oid =>
    match bridgePoints row.structure_number with
    | none =>
      ⟨row.structure_number, row.final_osm_id,
       bridge_length_meters row.bridge_length, none, none⟩
    | some pt =>
      match osmWays (toString oid) with
      | none =>
        ⟨row.structure_number, row.final_osm_id,
         bridge_length_meters row.bridge_length, none, none⟩
      | some (v0, vs) =>
        ⟨row.structure_number, row.final_osm_id,
         bridge_length_meters row.bridge_length,
         some (project_point_on_line pt v0 vs).1,
         some (project_point_on_line pt v0 vs).2⟩

/-- The whole projection loop: every association row yields exactly one
output row, in order. -/
def runProjection (bridgePoints : String → Option Pt)
    (osmWays : String → Option (Pt × List Pt)) (rows : List AssocRow) :
    List ProjRow :=
  rows.map (processRow bridgePoints osmWays)

end ProjectionEngine

namespace BridgeAssoc

/-- C5: for a candidate group whose combo-count exceeds 1 and in which
exactly one row has the stream-match flag set, `determine_final_osm_id`
returns that row's segment id, name, stream id, stream name and
intersection point, regardless of every other row's distance flags. -/
theorem c5_unique_stream_match_wins (g0 : CandidateRow) (rest : List CandidateRow)
    (t : CandidateRow) (hc : 1 < g0.combo_count)
    (ht : (g0 :: rest).filter (fun r => r.is_stream_identical) = [t]) :
    determine_final_osm_id (g0 :: rest) = some (assocOfRow t) := by
  have hne : (g0.combo_count == 1) = false := by
    simp only [beq_eq_false_iff_ne, ne_eq]
    omega
  simp only [determine_final_osm_id, ht, hne, Bool.false_eq_true, if_false]

/-- Witness for C5 at the spec's literal case: rows
`[{segment 7, stream_match true, dist 10}, {segment 9, stream_match false,
dist 1, min_dist}]` resolve to segment 7. -/
theorem c5_witness :
    determine_final_osm_id
      [⟨some "7", some "seven", some "s7", some "gn7", some 10, some 10, true, false, 2⟩,
       ⟨some "9", some "nine", some "s9", some "gn9", some 1, some 1, false, true, 2⟩] =
    some ⟨some "7", some "seven", some "s7", some "gn7", some 10, some 10⟩ :=
  c5_unique_stream_match_wins
    ⟨some "7", some "seven", some "s7", some "gn7", some 10, some 10, true, false, 2⟩
    [⟨some "9", some "nine", some "s9", some "gn9", some 1, some 1, false, true, 2⟩]
    ⟨some "7", some "seven", some "s7", some "gn7", some 10, some 10, true, false, 2⟩
    (by decide) (by decide)

/-- C1 counterexample: the claim states that for a group with combo-count > 1
and not exactly one stream-matching row, the winner is the minimum-distance
row *among the stream-matching rows*, and that if none of those is flagged
minimum-distance the association is all-null.  The code instead consults the
minimum-distance rows of the *whole group*: with two stream-matching rows,
neither flagged minimum-distance, and a third non-stream-matching row that
carries the flag, the code returns the third row's fields (segment "9"),
not the all-null association the claim requires. -/
theorem c1_counterexample :
    ¬ (∀ (g0 : CandidateRow) (rest : List CandidateRow),
        1 < g0.combo_count →
        2 ≤ ((g0 :: rest).filter (fun r => r.is_stream_identical)).length →
        determine_final_osm_id (g0 :: rest) =
          some (match ((g0 :: rest).filter (fun r => r.is_stream_identical)).filter
                    (fun r => r.is_min_dist) with
                | m :: _ => assocOfRow m
                | [] => nullAssoc)) := by
  intro h
  have hc := h
    ⟨some "7", some "seven", some "s7", some "g7", some 10, some 10, true, false, 3⟩
    [⟨some "8", some "eight", some "s8", some "g8", some 5, some 5, true, false, 3⟩,
     ⟨some "9", some "nine", some "s9", some "g9", some 1, some 1, false, true, 3⟩]
    (by decide) (by decide)
  exact absurd hc (by decide)

/-- C1 amended: for a group with combo-count > 1 in which the number of
stream-matching rows is not exactly one, `determine_final_osm_id` returns the
first row of the *whole group* flagged minimum-distance (whether or not that
row is stream-matching), and only when no row of the group carries the
minimum-distance flag does it return the all-null association. -/
theorem c1_amended (g0 : CandidateRow) (rest : List CandidateRow)
    (hc : 1 < g0.combo_count)
    (hlen : ((g0 :: rest).filter (fun r => r.is_stream_identical)).length ≠ 1) :
    determine_final_osm_id (g0 :: rest) =
      some (match (g0 :: rest).filter (fun r => r.is_min_dist) with
            | m :: _ => assocOfRow m
            | [] => nullAssoc) := by
  have hne : (g0.combo_count == 1) = false := by
    simp only [beq_eq_false_iff_ne, ne_eq]
    omega
  simp only [determine_final_osm_id, hne, Bool.false_eq_true, if_false]
  cases hts : (g0 :: rest).filter (fun r => r.is_stream_identical) with
  | nil =>
    cases hmd : (g0 :: rest).filter (fun r => r.is_min_dist) <;> rfl
  | cons t ts =>
    cases ts with
    | nil => exact absurd (by rw [hts]; rfl) hlen
    | cons t2 ts2 =>
      cases hmd : (g0 :: rest).filter (fun r => r.is_min_dist) <;> rfl

/-- Witness for C1 amended: a combo-count-3 group with two unflagged
stream-matching rows and one flagged non-matching row resolves to the
flagged row's segment ("9"). -/
theorem c1_amended_witness :
    determine_final_osm_id
      [⟨some "7", some "seven", some "s7", some "g7", some 10, some 10, true, false, 3⟩,
       ⟨some "8", some "eight", some "s8", some "g8", some 5, some 5, true, false, 3⟩,
       ⟨some "9", some "nine", some "s9", some "g9", some 1, some 1, false, true, 3⟩] =
    some ⟨some "9", some "nine", some "s9", some "g9", some 1, some 1⟩ := by
  have h := c1_amended
    ⟨some "7", some "seven", some "s7", some "g7", some 10, some 10, true, false, 3⟩
    [⟨some "8", some "eight", some "s8", some "g8", some 5, some 5, true, false, 3⟩,
     ⟨some "9", some "nine", some "s9", some "g9", some 1, some 1, false, true, 3⟩]
    (by decide) (by decide)
  exact h.trans (by decide)

/-- C6: for a non-empty group whose combo-count is 1, the resolver returns the
group's (single) segment-id — the first row's `osm_id`, which by the
combo-count invariant is the only one in the group — and picks the anchor
point by precedence: the unique stream-matching row's intersection point if
there is exactly one; among several stream-matching rows the first one also
flagged minimum-distance, else the first of them; with no stream-matching row
the first minimum-distance row's point, else the first row's point. -/
theorem c6_combo_one_resolution (g0 : CandidateRow) (rest : List CandidateRow)
    (hc : g0.combo_count = 1) :
    ∃ a : FinalAssoc, determine_final_osm_id (g0 :: rest) = some a ∧
      a.final_osm_id = g0.osm_id ∧ a.osm_name = g0.name ∧
      (∀ t, (g0 :: rest).filter (fun r => r.is_stream_identical) = [t] →
        a.final_long = t.long_intersection ∧ a.final_lat = t.lat_intersection) ∧
      (∀ t t2 ts, (g0 :: rest).filter (fun r => r.is_stream_identical) = t :: t2 :: ts →
        (∀ m ms, (((g0 :: rest).filter (fun r => r.is_stream_identical)).filter
              (fun r => r.is_min_dist)) = m :: ms →
            a.final_long = m.long_intersection ∧ a.final_lat = m.lat_intersection) ∧
        ((((g0 :: rest).filter (fun r => r.is_stream_identical)).filter
              (fun r => r.is_min_dist)) = [] →
            a.final_long = t.long_intersection ∧ a.final_lat = t.lat_intersection)) ∧
      ((g0 :: rest).filter (fun r => r.is_stream_identical) = [] →
        (∀ m ms, (g0 :: rest).filter (fun r => r.is_min_dist) = m :: ms →
            a.final_long = m.long_intersection ∧ a.final_lat = m.lat_intersection) ∧
        ((g0 :: rest).filter (fun r => r.is_min_dist) = [] →
            a.final_long = g0.long_intersection ∧ a.final_lat = g0.lat_intersection)) := by
  have hq : (g0.combo_count == 1) = true := by simp [hc]
  simp only [determine_final_osm_id, hq, if_true]
  refine ⟨_, rfl, rfl, rfl, ?_, ?_, ?_⟩
  · intro t h
    rw [h]
    exact ⟨rfl, rfl⟩
  · intro t t2 ts h
    constructor
    · intro m ms hm
      rw [h] at hm ⊢
      rw [hm]
      exact ⟨rfl, rfl⟩
    · intro hm
      rw [h] at hm ⊢
      rw [hm]
      exact ⟨rfl, rfl⟩
  · intro h
    constructor
    · intro m ms hm
      rw [h, hm]
      exact ⟨rfl, rfl⟩
    · intro hm
      rw [h, hm]
      exact ⟨rfl, rfl⟩

/-- Witness for C6 at the spec's literal case: a combo-count-1 group with no
stream-matching row and the second row flagged minimum-distance anchors at
the second row's intersection point. -/
theorem c6_witness :
    ∃ a : FinalAssoc,
      determine_final_osm_id
        [⟨some "A", some "nA", some "s0", some "g0", some 5, some 50, false, false, 1⟩,
         ⟨some "A", some "nA", some "s1", some "g1", some 2, some 20, false, true, 1⟩] =
        some a ∧
      a.final_osm_id = some "A" ∧ a.final_long = some 2 ∧ a.final_lat = some 20 := by
  obtain ⟨a, ha, h1, _, _, _, h2⟩ := c6_combo_one_resolution
    ⟨some "A", some "nA", some "s0", some "g0", some 5, some 50, false, false, 1⟩
    [⟨some "A", some "nA", some "s1", some "g1", some 2, some 20, false, true, 1⟩]
    rfl
  obtain ⟨h3, -⟩ := h2 (by decide)
  obtain ⟨h4, h5⟩ := h3
    ⟨some "A", some "nA", some "s1", some "g1", some 2, some 20, false, true, 1⟩
    [] (by decide)
  exact ⟨a, ha, h1, h4, h5⟩

/-- C10: in the combo-count-1 branch the stream id and stream name of the
resolved association are taken from the first row of the group flagged
minimum-distance (null when no row carries the flag), independently of which
row supplies the anchor coordinates.  The two concrete groups show the
consequences: in the first, the anchor point comes from the stream-matching
first row while the stream fields come from the minimum-distance second row;
in the second, the segment-id is non-null while both stream fields are
null. -/
theorem c10_stream_fields_independent :
    (∀ (g0 : CandidateRow) (rest : List CandidateRow), g0.combo_count = 1 →
      ∃ a : FinalAssoc, determine_final_osm_id (g0 :: rest) = some a ∧
        a.final_osm_id = g0.osm_id ∧
        (∀ m ms, (g0 :: rest).filter (fun r => r.is_min_dist) = m :: ms →
          a.final_stream_id = m.permanent_identifier ∧ a.stream_name = m.gnis_name) ∧
        ((g0 :: rest).filter (fun r => r.is_min_dist) = [] →
          a.final_stream_id = none ∧ a.stream_name = none)) ∧
    determine_final_osm_id
      [⟨some "A", some "nA", some "s0", some "g0", some 10, some 11, true, false, 1⟩,
       ⟨some "A", some "nA", some "s1", some "g1", some 20, some 21, false, true, 1⟩] =
      some ⟨some "A", some "nA", some "s1", some "g1", some 10, some 11⟩ ∧
    determine_final_osm_id
      [⟨some "A", some "nA", some "s0", some "g0", some 5, some 6, false, false, 1⟩] =
      some ⟨some "A", some "nA", none, none, some 5, some 6⟩ := by
  refine ⟨?_, by decide, by decide⟩
  intro g0 rest hc
  have hq : (g0.combo_count == 1) = true := by simp [hc]
  simp only [determine_final_osm_id, hq, if_true]
  refine ⟨_, rfl, rfl, ?_, ?_⟩
  · intro m ms hm
    rw [hm]
    exact ⟨rfl, rfl⟩
  · intro hm
    rw [hm]
    exact ⟨rfl, rfl⟩

/-- Witness for C10: a combo-count-1 group whose second row is the
minimum-distance row yields that row's stream id and name. -/
theorem c10_witness :
    ∃ a : FinalAssoc,
      determine_final_osm_id
        [⟨some "A", some "nA", some "s0", some "g0", some 10, some 11, true, false, 1⟩,
         ⟨some "A", some "nA", some "s1", some "g1", some 20, some 21, false, true, 1⟩] =
        some a ∧
      a.final_stream_id = some "s1" ∧ a.stream_name = some "g1" := by
  obtain ⟨h, -, -⟩ := c10_stream_fields_independent
  obtain ⟨a, ha, h1, h2, h3⟩ := h
    ⟨some "A", some "nA", some "s0", some "g0", some 10, some 11, true, false, 1⟩
    [⟨some "A", some "nA", some "s1", some "g1", some 20, some 21, false, true, 1⟩]
    rfl
  obtain ⟨h4, h5⟩ := h2
    ⟨some "A", some "nA", some "s1", some "g1", some 20, some 21, false, true, 1⟩
    [] (by decide)
  exact ⟨a, ha, h4, h5⟩

end BridgeAssoc

namespace BridgeDedup

lemma loserOpt_mem (scores : String → Option ℚ) (p : String × String) (l : String)
    (h : loserOpt scores p = some l) : l = p.1 ∨ l = p.2 := by
  unfold loserOpt at h
  rcases h1 : scores p.1 with _ | s1 <;> rcases h2 : scores p.2 with _ | s2 <;>
      rw [h1, h2] at h
  · exact absurd h (by simp)
  · exact absurd h (by simp)
  · exact absurd h (by simp)
  · simp only [Option.some.injEq] at h
    subst h
    split_ifs <;> simp

lemma dedupStep_not_removed (scores : String → Option ℚ) (removed : List String)
    (p : String × String) (h1 : p.1 ∉ removed) (h2 : p.2 ∉ removed) :
    dedupStep scores removed p =
      match loserOpt scores p with
      | some l => l :: removed
      | none => removed := by
  unfold dedupStep loserOpt
  rw [if_neg (by tauto)]
  rcases scores p.1 with _ | s1 <;> rcases scores p.2 with _ | s2
  · rfl
  · rfl
  · rfl
  · show (if s1 > s2 then p.2 :: removed else if s2 > s1 then p.1 :: removed
          else p.2 :: removed) =
        (if s1 > s2 then p.2 else if s2 > s1 then p.1 else p.2) :: removed
    split_ifs <;> rfl

lemma foldl_dedup_mem (scores : String → Option ℚ) :
    ∀ (ps : List (String × String)) (r : List String),
      ps.Pairwise pairDisjoint →
      (∀ p ∈ ps, p.1 ∉ r ∧ p.2 ∉ r) →
      ∀ x, x ∈ ps.foldl (dedupStep scores) r ↔
        (∃ p ∈ ps, loserOpt scores p = some x) ∨ x ∈ r := by
  intro ps
  induction ps with
  | nil => intro r _ _ x; simp
  | cons p ps ih =>
    intro r hpw hr x
    rw [List.foldl_cons]
    have hp1 : p.1 ∉ r := (hr p (by simp)).1
    have hp2 : p.2 ∉ r := (hr p (by simp)).2
    rw [dedupStep_not_removed scores r p hp1 hp2]
    rcases hl : loserOpt scores p with _ | l
    · rw [ih r hpw.of_cons (fun q hq => hr q (List.mem_cons_of_mem _ hq)) x]
      constructor
      · rintro (⟨q, hq, hlq⟩ | hx)
        · exact Or.inl ⟨q, List.mem_cons_of_mem _ hq, hlq⟩
        · exact Or.inr hx
      · rintro (⟨q, hq, hlq⟩ | hx)
        · rcases List.mem_cons.mp hq with rfl | hq'
          · rw [hl] at hlq
            exact absurd hlq (by simp)
          · exact Or.inl ⟨q, hq', hlq⟩
        · exact Or.inr hx
    · have hlmem := loserOpt_mem scores p l hl
      have hdisj := (List.pairwise_cons.mp hpw).1
      have hrest : ∀ q ∈ ps, q.1 ∉ (l :: r) ∧ q.2 ∉ (l :: r) := by
        intro q hq
        obtain ⟨h11, h12, h21, h22⟩ := hdisj q hq
        obtain ⟨hq1, hq2⟩ := hr q (List.mem_cons_of_mem _ hq)
        rcases hlmem with rfl | rfl <;> simp only [List.mem_cons, not_or]
        · exact ⟨⟨fun hh => h11 hh.symm, hq1⟩, fun hh => h12 hh.symm, hq2⟩
        · exact ⟨⟨fun hh => h21 hh.symm, hq1⟩, fun hh => h22 hh.symm, hq2⟩
      rw [ih (l :: r) hpw.of_cons hrest x]
      constructor
      · rintro (⟨q, hq, hlq⟩ | hx)
        · exact Or.inl ⟨q, List.mem_cons_of_mem _ hq, hlq⟩
        · rcases List.mem_cons.mp hx with rfl | hx'
          · exact Or.inl ⟨p, List.mem_cons_self _ _, hl⟩
          · exact Or.inr hx'
      · rintro (⟨q, hq, hlq⟩ | hx)
        · rcases List.mem_cons.mp hq with rfl | hq'
          · rw [hl] at hlq
            simp only [Option.some.injEq] at hlq
            subst hlq
            exact Or.inr (List.mem_cons_self _ _)
          · exact Or.inl ⟨q, hq', hlq⟩
        · exact Or.inr (List.mem_cons_of_mem _ hx)

/-- C4 counterexample: the deduplication loop is not input-order-independent.
With scores A=90, B=60, C=60 and the pair list [(A,B),(B,C)], processing in
the given order removes only B (the (B,C) pair is skipped because B is
already removed); after swapping the two pairs, the (B,C) tie first removes
C and then (A,B) removes B, so the removal sets {B} and {B,C} differ even
though the two pair lists are permutations of each other. -/
theorem c4_counterexample :
    ¬ (∀ (scores : String → Option ℚ) (ps ps' : List (String × String)),
        ps.Perm ps' →
        ∀ x, x ∈ remove_ids scores ps ↔ x ∈ remove_ids scores ps') := by
  intro h
  have hperm : (([("A", "B"), ("B", "C")] : List (String × String))).Perm
      [("B", "C"), ("A", "B")] := List.Perm.swap _ _ _
  have hc := h
    (fun s => if s = "A" then some 90 else if s = "B" then some 60
              else if s = "C" then some 60 else none)
    _ _ hperm "C"
  revert hc
  decide

/-- C4 amended: the removal set is order-independent when no bridge occurs in
more than one pair — for endpoint-disjoint pair lists, any permutation of the
pairs yields the same removal set (each pair independently removes its
lower-scoring endpoint, the second-listed on ties, and pairs with a missing
score are skipped).  With overlapping pairs the removal set can depend on the
input order, as the counterexample shows. -/
theorem c4_amended (scores : String → Option ℚ) (ps ps' : List (String × String))
    (hd : ps.Pairwise pairDisjoint) (hp : ps.Perm ps') (x : String) :
    x ∈ remove_ids scores ps ↔ x ∈ remove_ids scores ps' := by
  have hsymm : Symmetric pairDisjoint := by
    intro a b hab
    obtain ⟨h1, h2, h3, h4⟩ := hab
    exact ⟨h1.symm, h3.symm, h2.symm, h4.symm⟩
  have hpf := hp.filter (fun p => p.1 != p.2)
  have hd1 : (ps.filter (fun p => p.1 != p.2)).Pairwise pairDisjoint :=
    List.Pairwise.sublist (List.filter_sublist _) hd
  have hd2 : (ps'.filter (fun p => p.1 != p.2)).Pairwise pairDisjoint :=
    (hpf.pairwise_iff (fun h => hsymm h)).mp hd1
  unfold remove_ids
  rw [foldl_dedup_mem scores _ [] hd1 (by simp) x,
      foldl_dedup_mem scores _ [] hd2 (by simp) x]
  simp only [List.not_mem_nil, or_false]
  constructor
  · rintro ⟨q, hq, hlq⟩
    exact ⟨q, hpf.mem_iff.mp hq, hlq⟩
  · rintro ⟨q, hq, hlq⟩
    exact ⟨q, hpf.mem_iff.mpr hq, hlq⟩

/-- Witness for C4 amended: for the endpoint-disjoint pairs (A,B) and (C,D),
membership of "B" in the removal set is the same in either processing
order. -/
theorem c4_amended_witness :
    ("B" ∈ remove_ids
        (fun s => if s = "A" then some 90 else if s = "B" then some 60
                  else if s = "C" then some 55 else if s = "D" then some 50
                  else none)
        [("A", "B"), ("C", "D")] ↔
     "B" ∈ remove_ids
        (fun s => if s = "A" then some 90 else if s = "B" then some 60
                  else if s = "C" then some 55 else if s = "D" then some 50
                  else none)
        [("C", "D"), ("A", "B")]) := by
  refine c4_amended _ _ _ ?_ (List.Perm.swap _ _ _) "B"
  refine List.Pairwise.cons ?_ (List.Pairwise.cons (by simp) List.Pairwise.nil)
  intro q hq
  rw [List.mem_singleton] at hq
  subst hq
  exact ⟨by decide, by decide, by decide, by decide⟩

end BridgeDedup

namespace MergeApproaches

/-- C2 counterexample: the claim states that when the two methods disagree on
the segment-id, the method with the strictly higher score wins (ties to the
mile-point method) provided the winning score clears one of the thresholds.
The merge code instead drops every disagreeing row at the agreement filter:
for a bridge whose hydrography association is way "7" with score 95 and whose
mile-point association is way "9" with score 80 (both far above any
threshold), no output row exists at all, so no winner is ever emitted. -/
theorem c2_counterexample :
    ¬ (∀ (review auto : ℚ), review ≤ auto →
        ∀ (rows : List MergeRow) (r : MergeRow) (a b : String),
          r ∈ rows → r.osm_id_hydro = some a → r.osm_id_mile = some b → a ≠ b →
          review ≤ max r.osm_similarity_hydro r.neighbouring_roads_similarity →
          ∃ out ∈ merged_rows rows, out.structure_number = r.structure_number ∧
            out.osm_id_hydro =
              some (if r.neighbouring_roads_similarity < r.osm_similarity_hydro
                    then a else b)) := by
  intro h
  obtain ⟨out, hmem, -⟩ := h 60 75 (by norm_num)
    [⟨"X", some "7", some "9", some (0, 0), 1, 95, 80⟩]
    ⟨"X", some "7", some "9", some (0, 0), 1, 95, 80⟩
    "7" "9" (by simp) rfl rfl (by decide) (by norm_num)
  simp [merged_rows, keepsRow] at hmem

/-- C2 amended: when the hydrography and mile-point methods both produce a
non-null association but disagree on the segment-id, the Two-Method
Reconciler excludes the bridge from the merged output entirely (it is
counted as "Different OSM NBI association in both approaches"), regardless
of either similarity score; every row of the output carries one segment-id
on which both methods agreed, together with a non-null mile-point
geometry. -/
theorem c2_amended (rows : List MergeRow) :
    (∀ r ∈ merged_rows rows,
      ∃ v, r.osm_id_hydro = some v ∧ r.osm_id_mile = some v ∧ r.geometry.isSome) ∧
    (∀ r ∈ rows, ∀ a b, r.osm_id_hydro = some a → r.osm_id_mile = some b →
      a ≠ b → r ∉ merged_rows rows) := by
  constructor
  · intro r hr
    have hk : keepsRow r = true := (List.mem_filter.mp hr).2
    unfold keepsRow at hk
    rcases hm : r.osm_id_mile with _ | vm <;> rw [hm] at hk
    · rcases r.osm_id_hydro <;> simp at hk
    · rcases hh : r.osm_id_hydro with _ | vh <;> rw [hh] at hk
      · simp at hk
      · obtain ⟨hvb, hg⟩ := Bool.and_eq_true_iff.mp hk
        have hvm : vm = vh := beq_iff_eq.mp (show (vm == vh) = true from hvb)
        exact ⟨vh, rfl, by rw [hvm], hg⟩
  · intro r _ a b hh hm hne hmem
    have hk : keepsRow r = true := (List.mem_filter.mp hmem).2
    unfold keepsRow at hk
    rw [hh, hm] at hk
    obtain ⟨hvb, -⟩ := Bool.and_eq_true_iff.mp hk
    have hba : b = a := beq_iff_eq.mp (show (b == a) = true from hvb)
    exact hne hba.symm

/-- Witness for C2 amended: a one-row table with an agreeing row is kept
with its common way id, and a disagreeing row is dropped. -/
theorem c2_amended_witness :
    (∃ v, (some "5" : Option String) = some v ∧ (some "5" : Option String) = some v ∧
      (some ((0 : ℚ), (0 : ℚ)) : Option (ℚ × ℚ)).isSome) ∧
    (⟨"X", some "7", some "9", some (0, 0), 1, 95, 80⟩ : MergeRow) ∉
      merged_rows [⟨"X", some "7", some "9", some (0, 0), 1, 95, 80⟩] := by
  constructor
  · obtain ⟨h1, -⟩ := c2_amended
      [⟨"Y", some "5", some "5", some (0, 0), 1, 95, 80⟩]
    exact h1 ⟨"Y", some "5", some "5", some (0, 0), 1, 95, 80⟩ (by decide)
  · obtain ⟨-, h2⟩ := c2_amended
      [⟨"X", some "7", some "9", some (0, 0), 1, 95, 80⟩]
    exact h2 ⟨"X", some "7", some "9", some (0, 0), 1, 95, 80⟩ (by simp)
      "7" "9" rfl rfl (by decide)

/-- C3 counterexample: the claim describes a three-band classifier over a
configurable threshold pair.  The merge code classifies with the single
hardcoded threshold 70 and the combo-count: a kept row whose combo-count is
1 is labelled "Automated" whatever its score, so a bridge with combined
similarity 10 — below any review floor — is still an automated edit,
contradicting the claim's band structure for the pair (60, 75). -/
theorem c3_counterexample :
    ¬ (∀ (review auto : ℚ), review ≤ auto → ∀ r : MergeRow,
        (osm_edits r = "Automated" ↔ auto ≤ combined_max_similarity r) ∧
        (osm_edits r = "Maproulette" ↔
          review ≤ combined_max_similarity r ∧ combined_max_similarity r < auto) ∧
        (combined_max_similarity r < review → osm_edits r ≠ "Automated")) := by
  intro h
  have hc := (h 60 75 (by norm_num)
    ⟨"X", some "7", some "7", some (0, 0), 1, 10, 10⟩).2.2
  exact hc (by norm_num [combined_max_similarity]) (by decide)

/-- C3 amended: the merge-step Disposition Classifier uses the single
hardcoded threshold 70 together with the combo-count: a row is labelled
"Maproulette" (review) exactly when more than one OSM way lies in the bridge
buffer and the combined maximum similarity is below 70, and "Automated"
otherwise — in particular a single-candidate bridge is an automated edit
regardless of how low its similarity score is, and no separate
low-confidence exclusion band exists. -/
theorem c3_amended (r : MergeRow) :
    (osm_edits r = "Maproulette" ↔
      1 < r.unique_bridge_osm_combinations ∧
        combined_max_similarity r < similarity_threshold) ∧
    (osm_edits r = "Automated" ↔
      ¬ (1 < r.unique_bridge_osm_combinations ∧
          combined_max_similarity r < similarity_threshold)) := by
  unfold osm_edits
  split_ifs with hc
  · exact ⟨⟨fun _ => hc, fun _ => rfl⟩, ⟨fun hs => absurd hs (by decide), fun hn => absurd hc hn⟩⟩
  · exact ⟨⟨fun hs => absurd hs (by decide), fun hs => absurd hs hc⟩, ⟨fun _ => hc, fun _ => rfl⟩⟩

end MergeApproaches

namespace Ledger

/-- C7: for every completed pipeline run — whatever the initial total, the
per-stage exclusion counts, and the intermediate file sizes — the final
twelve-entry statistics ledger satisfies the exact telescoping identity:
its first entry (the initial bridge total) equals the sum of the ten
exclusion-category entries plus the last entry (the automated-edit count).
The identity holds unconditionally because the merge step computes the
automated-edit count as exactly this residual, so the mismatch the claim
wants escalated can never arise. -/
theorem c7_ledger_identity (total dup culverts lenYes lenManmade lenParallel
    lenFinal lenFinalCsv unsnapped numAgreeRows maproulette : ℤ) :
    (full_ledger total dup culverts lenYes lenManmade lenParallel lenFinal
        lenFinalCsv unsnapped numAgreeRows maproulette).headI =
      ((full_ledger total dup culverts lenYes lenManmade lenParallel lenFinal
          lenFinalCsv unsnapped numAgreeRows maproulette).tail.dropLast).sum +
        (full_ledger total dup culverts lenYes lenManmade lenParallel lenFinal
            lenFinalCsv unsnapped numAgreeRows maproulette).getLastD 0 := by
  simp only [full_ledger, merged_main_stats, create_bridge_statistics]
  norm_num [List.headI, List.tail, List.dropLast, List.sum_cons, List.getLastD]

end Ledger

namespace Similarity

/-- C8 counterexample: the claim asserts the vectorized best-of-N-aliases
computation produces, for each row, exactly the same maximum score and
source-column label as the scalar row-by-row definition.  The scores always
agree, but on a row whose maximum score is 0 (here: the single alias cell is
null, so every alias scores 0) the vectorized computation overrides the
label with the empty-string sentinel while the scalar definition records the
first alias ("name"), so the pairs differ. -/
theorem c8_counterexample :
    ¬ (∀ (fuzz : String → String → ℕ) (tableCols cols : List String)
        (fixed : String) (row : Row),
        cols ≠ [] → (∀ c ∈ cols, c ∈ tableCols) →
        calculate_similarity_vectorized fuzz tableCols cols fixed row =
          scalar_best_of_aliases fuzz cols fixed row) := by
  intro h
  have hc := h (fun _ _ => 0) ["name", "fc"] ["name"] "fc"
    (fun c => if c = "fc" then some "x" else none) (by decide) (by decide)
  exact absurd hc (by decide)

/-- C8 amended: whenever the alias columns are all present in the table, the
vectorized computation returns exactly the scalar row-by-row maximum score,
and whenever that maximum is nonzero it also returns the same source-column
label; only on all-zero rows does the vectorized label differ (the
empty-string sentinel instead of the first alias). -/
theorem c8_amended (fuzz : String → String → ℕ) (tableCols cols : List String)
    (fixed : String) (row : Row) (hsub : ∀ c ∈ cols, c ∈ tableCols) :
    (calculate_similarity_vectorized fuzz tableCols cols fixed row).1 =
      (scalar_best_of_aliases fuzz cols fixed row).1 ∧
    ((scalar_best_of_aliases fuzz cols fixed row).1 ≠ 0 →
      calculate_similarity_vectorized fuzz tableCols cols fixed row =
        scalar_best_of_aliases fuzz cols fixed row) := by
  have hp : cols.filter (fun c => tableCols.contains c) = cols := by
    rw [List.filter_eq_self]
    intro c hc
    simpa using hsub c hc
  simp only [calculate_similarity_vectorized, scalar_best_of_aliases, hp]
  split_ifs with h0
  · exact ⟨h0.symm, fun hn => absurd h0 hn⟩
  · exact ⟨rfl, fun _ => rfl⟩

/-- Witness for C8 amended: one alias column holding the same string as the
fixed column scores 100 under a token-sort scorer, and the vectorized and
scalar results coincide. -/
theorem c8_witness :
    (calculate_similarity_vectorized (fun a b => if a == b then 100 else 0)
        ["name", "fc"] ["name"] "fc"
        (fun c => if c = "fc" ∨ c = "name" then some "x" else none)).1 =
      (scalar_best_of_aliases (fun a b => if a == b then 100 else 0)
        ["name"] "fc" (fun c => if c = "fc" ∨ c = "name" then some "x" else none)).1 ∧
    ((scalar_best_of_aliases (fun a b => if a == b then 100 else 0)
        ["name"] "fc" (fun c => if c = "fc" ∨ c = "name" then some "x" else none)).1 ≠ 0 →
      calculate_similarity_vectorized (fun a b => if a == b then 100 else 0)
          ["name", "fc"] ["name"] "fc"
          (fun c => if c = "fc" ∨ c = "name" then some "x" else none) =
        scalar_best_of_aliases (fun a b => if a == b then 100 else 0)
          ["name"] "fc" (fun c => if c = "fc" ∨ c = "name" then some "x" else none)) :=
  c8_amended (fun a b => if a == b then 100 else 0) ["name", "fc"] ["name"] "fc"
    (fun c => if c = "fc" ∨ c = "name" then some "x" else none) (by decide)

end Similarity

namespace ProjectionEngine

/-- When the `final_osm_id` cell is NaN, the loop's except branch fires. -/
lemma processRow_eq_of_osm_id_none (bps : String → Option Pt)
    (ways : String → Option (Pt × List Pt)) (row : AssocRow)
    (h : row.final_osm_id = none) :
    processRow bps ways row =
      ⟨row.structure_number, row.final_osm_id,
       bridge_length_meters row.bridge_length, none, none⟩ := by
  unfold processRow
  rw [h]

/-- With a non-null `final_osm_id` the outcome depends on the two lookups. -/
lemma processRow_eq_of_osm_id_some (bps : String → Option Pt)
    (ways : String → Option (Pt × List Pt)) (row : AssocRow) (oid : Int)
    (h : row.final_osm_id = some oid) :
    processRow bps ways row =
      match bps row.structure_number with
      | none =>
        ⟨row.structure_number, row.final_osm_id,
         bridge_length_meters row.bridge_length, none, none⟩
      | some pt =>
        match ways (toString oid) with
        | none =>
          ⟨row.structure_number, row.final_osm_id,
           bridge_length_meters row.bridge_length, none, none⟩
        | some (v0, vs) =>
          ⟨row.structure_number, row.final_osm_id,
           bridge_length_meters row.bridge_length,
           some (project_point_on_line pt v0 vs).1,
           some (project_point_on_line pt v0 vs).2⟩ := by
  unfold processRow
  rw [h]

/-- C9: the projection loop emits exactly one output row per association row
(no row is dropped, no error escapes).  For each row: the structure number
is preserved; the output `bridge_length` is the input structure length in
feet divided by 3.281 and rounded to two decimals, whether or not the
projection succeeds; if the segment-id is null, or the bridge-point lookup
fails, or the way lookup for the segment-id fails, both projected
coordinates carry the empty-string sentinel; otherwise they hold the
perpendicular (clamped) projection of the bridge point onto the way. -/
theorem c9_projection (bps : String → Option Pt)
    (ways : String → Option (Pt × List Pt)) (rows : List AssocRow) :
    (runProjection bps ways rows).length = rows.length ∧
    ∀ row ∈ rows,
      (processRow bps ways row).structure_number = row.structure_number ∧
      (processRow bps ways row).bridge_length =
        round2 (row.bridge_length / (3281 / 1000)) ∧
      ((row.final_osm_id = none ∨ bps row.structure_number = none ∨
          (∀ oid, row.final_osm_id = some oid → ways (toString oid) = none)) →
        (processRow bps ways row).projected_long = none ∧
        (processRow bps ways row).projected_lat = none) ∧
      (∀ oid pt v0 vs, row.final_osm_id = some oid →
        bps row.structure_number = some pt → ways (toString oid) = some (v0, vs) →
        (processRow bps ways row).projected_long =
            some (project_point_on_line pt v0 vs).1 ∧
        (processRow bps ways row).projected_lat =
            some (project_point_on_line pt v0 vs).2) := by
  refine ⟨by simp [runProjection], ?_⟩
  intro row _
  rcases ho : row.final_osm_id with _ | oid
  · rw [processRow_eq_of_osm_id_none bps ways row ho]
    refine ⟨rfl, rfl, fun _ => ⟨rfl, rfl⟩, ?_⟩
    intro oid pt v0 vs h1 h2 h3
    exact absurd h1 (by simp)
  · rw [processRow_eq_of_osm_id_some bps ways row oid ho]
    rcases hb : bps row.structure_number with _ | pt
    · refine ⟨rfl, rfl, fun _ => ⟨rfl, rfl⟩, ?_⟩
      intro oid' pt v0 vs h1 h2 h3
      exact absurd h2 (by simp)
    · rcases hw : ways (toString oid) with _ | ⟨v0, vs⟩
      · refine ⟨rfl, rfl, fun _ => ⟨rfl, rfl⟩, ?_⟩
        intro oid' pt' v0 vs h1 h2 h3
        obtain rfl := Option.some.inj h1
        rw [hw] at h3
        exact absurd h3 (by simp)
      · refine ⟨rfl, rfl, ?_, ?_⟩
        · rintro (h | h | h)
          · exact absurd h (by simp)
          · exact absurd h (by simp)
          · have := h oid rfl
            rw [hw] at this
            exact absurd this (by simp)
        · intro oid' pt' v0' vs' h1 h2 h3
          obtain rfl := Option.some.inj h1
          obtain rfl := Option.some.inj h2
          rw [hw] at h3
          have h4 := Option.some.inj h3
          injection h4 with hv hvs
          subst hv
          subst hvs
          exact ⟨rfl, rfl⟩

/-- Witness for C9: a two-row run in which the first row's lookups all
succeed (its coordinates are the projection onto the way, its length is
unit-converted) and the second row has a null segment-id (sentinel
coordinates, length still converted). -/
theorem c9_witness :
    ((processRow (fun s => if s = "B1" then some (0, 0) else none)
        (fun s => if s = "5" then some ((0, 1), [(2, 1)]) else none)
        ⟨"B1", some 5, 3281 / 100⟩).projected_long =
      some (project_point_on_line (0, 0) (0, 1) [(2, 1)]).1) ∧
    ((processRow (fun s => if s = "B1" then some (0, 0) else none)
        (fun s => if s = "5" then some ((0, 1), [(2, 1)]) else none)
        ⟨"B2", none, 100⟩).projected_long = none) ∧
    ((processRow (fun s => if s = "B1" then some (0, 0) else none)
        (fun s => if s = "5" then some ((0, 1), [(2, 1)]) else none)
        ⟨"B2", none, 100⟩).bridge_length = round2 (100 / (3281 / 1000))) := by
  have h := c9_projection (fun s => if s = "B1" then some (0, 0) else none)
    (fun s => if s = "5" then some ((0, 1), [(2, 1)]) else none)
    [⟨"B1", some 5, 3281 / 100⟩, ⟨"B2", none, 100⟩]
  refine ⟨?_, ?_, ?_⟩
  · exact ((h.2 ⟨"B1", some 5, 3281 / 100⟩ (by simp)).2.2.2 5 (0, 0) (0, 1) [(2, 1)]
      rfl (by decide) (by decide)).1
  · exact ((h.2 ⟨"B2", none, 100⟩ (by simp)).2.2.1 (Or.inl rfl)).1
  · exact (h.2 ⟨"B2", none, 100⟩ (by simp)).2.1

end ProjectionEngine
